import Mathlib

/-!
Shallow embedding of the multipart message composer (package `composer` of
go-multipart-composer) and proofs about its specification.

Modelling conventions:
* Byte strings are modelled as `List Char` (`Str`), one `Char` per byte.
  Every string the composer manipulates in the verified scenarios is ASCII,
  where Go's byte-wise operations coincide with character-wise ones.
* An `io.Reader` value stored in `Composer.readers` is modelled by `Reader`:
  `content` is the byte sequence the reader yields when read to exhaustion,
  `size` is `some n` exactly when the value implements `sizeio.WithSize`
  (reporting `n`), and `closable` is true exactly when it implements
  `io.Closer`.
* Methods that mutate the receiver and may fail return
  `Except String α × Composer`: the error (with the exact message built by
  `errors.New` in the source) and the state of the receiver after the call.
* The observable effect of closing readers (`closeAll`) is modelled as the
  list of readers whose `Close` method is invoked.
* Go `map[string]string` iteration order is unspecified, so the serializers
  that range over a map take the iteration sequence as an explicit list of
  key/value pairs.
* External collaborators (`crypto/rand`, `mime.TypeByExtension`,
  `sizeio.OpenFile`, `os.File.Stat`) are modelled as parameters supplying
  their results.
-/

deriving instance DecidableEq for Except

namespace MultipartComposer

/-- Byte strings, one `Char` per byte (ASCII). -/
abbrev Str := List Char

/-- An `io.Reader` element of the composer's source chain: the bytes it
produces, its optional `sizeio.WithSize` size, and whether it implements
`io.Closer`. -/
structure Reader where
  content : Str
  size : Option Nat
  closable : Bool
deriving DecidableEq, Repr

/-- `bytes.NewReader buf`: reports its exact length via `Size`, has no
`Close` method. -/
def bytesReader (buf : Str) : Reader :=
  { content := buf, size := some buf.length, closable := false }

/-- `strings.NewReader s`: reports its exact length via `Size`, has no
`Close` method. -/
def stringsReader (s : Str) : Reader :=
  { content := s, size := some s.length, closable := false }

/-- `sizeio.SizeReadCloser(file, size)`: a closable reader with a reported
size. -/
def sizeReadCloser (content : Str) (size : Nat) : Reader :=
  { content := content, size := some size, closable := true }

/-- The `Composer` struct: the `CloseReaders` flag, the boundary and the
ordered source chain. -/
structure Composer where
  CloseReaders : Bool
  boundary : Str
  readers : List Reader
deriving DecidableEq, Repr

/-- `NewComposer`, with the randomly generated boundary supplied as a
parameter (the source draws it from `crypto/rand`). -/
def NewComposer (randomBoundary : Str) : Composer :=
  { boundary := randomBoundary, CloseReaders := true, readers := [] }

/-- `Composer.Boundary`. -/
def Composer.Boundary (c : Composer) : Str :=
  c.boundary

/-- The alphanumeric test of the boundary-validation loop in
`Composer.SetBoundary`. -/
def isAlnum (ch : Char) : Bool :=
  ('A' ≤ ch && ch ≤ 'Z') || ('a' ≤ ch && ch ≤ 'z') || ('0' ≤ ch && ch ≤ '9')

/-- The punctuation cases of the `switch` in the boundary-validation loop of
`Composer.SetBoundary`. -/
def isBoundaryPunct (ch : Char) : Bool :=
  ch == '\'' || ch == '(' || ch == ')' || ch == '+' || ch == '_' || ch == ',' ||
  ch == '-' || ch == '.' || ch == '/' || ch == ':' || ch == '=' || ch == '?'

/-- The character loop of `Composer.SetBoundary`: `i` is the index of the
first character of the remaining list, `e` the index of the last character
of the whole token; returns false exactly when the loop returns the
invalid-character error. -/
def boundaryCharsOk : Str → Nat → Nat → Bool
  | [], _, _ => true
  | ch :: rest, i, e =>
    if isAlnum ch then boundaryCharsOk rest (i + 1) e
    else if isBoundaryPunct ch then boundaryCharsOk rest (i + 1) e
    else if ch == ' ' && i != e then boundaryCharsOk rest (i + 1) e
    else false

/-- `Composer.SetBoundary`. -/
def Composer.SetBoundary (c : Composer) (boundary : Str) : Except String Unit × Composer :=
  if c.readers.length > 0 then
    (.error "multipart: SetBoundary called after add", c)
  else if boundary.length < 1 || boundary.length > 70 then
    (.error "multipart: invalid boundary length", c)
  else if boundaryCharsOk boundary 0 (boundary.length - 1) then
    (.ok (), { c with boundary := boundary })
  else
    (.error "multipart: invalid boundary character", c)

/-- `Composer.ResetBoundary`, with the randomly generated replacement
boundary supplied as a parameter. -/
def Composer.ResetBoundary (c : Composer) (randomBoundary : Str) : Except String Unit × Composer :=
  if c.readers.length > 0 then
    (.error "multipart: RandomizeBoundary called after add", c)
  else
    (.ok (), { c with boundary := randomBoundary })

/-- `escapeQuotes`: `strings.NewReplacer("\\", "\\\\", "\"", "\\\"")` applied
in one pass. -/
def escapeQuotes : Str → Str
  | [] => []
  | ch :: rest =>
    if ch == '\\' then '\\' :: '\\' :: escapeQuotes rest
    else if ch == '"' then '\\' :: '"' :: escapeQuotes rest
    else ch :: escapeQuotes rest

/-- `Composer.delimiter`: the CRLF emitted before every part except the
first one. -/
def Composer.delimiter (c : Composer) : Str :=
  if c.readers.length > 0 then "\r\n".data else []

/-- A `textproto.MIMEHeader`: canonical header field names mapped to their
value lists; modelled as an association list with distinct keys. -/
abbrev MIMEHeader := List (Str × List Str)

/-- The `Content-Disposition` value built by `Composer.CreatePart`:
`form-data` followed by each disposition entry, in the iteration order of
the Go map (taken as the order of the list). -/
def dispositionLine (disposition : List (Str × Str)) : Str :=
  "form-data".data ++
    (disposition.map fun kv =>
      "; ".data ++ kv.1 ++ "=\"".data ++ escapeQuotes kv.2 ++ "\"".data).flatten

/-- `Composer.CreatePart`: builds a header with only `Content-Disposition`,
whose value lists the disposition entries in map iteration order. -/
def Composer.CreatePart (_c : Composer) (disposition : List (Str × Str)) : MIMEHeader :=
  [("Content-Disposition".data, [dispositionLine disposition])]

/-- `Composer.CreateFieldPart`. -/
def Composer.CreateFieldPart (_c : Composer) (name : Str) : MIMEHeader :=
  [("Content-Disposition".data,
    ["form-data; name=\"".data ++ escapeQuotes name ++ "\"".data])]

/-- Models `filepath.Ext` on the reverse of the path: the suffix starting at
the last dot of the last slash-separated element. -/
def extRevLoop : Str → Str → Str
  | [], _ => []
  | ch :: rest, acc =>
    if ch == '.' then ch :: acc
    else if ch == '/' then []
    else extRevLoop rest (ch :: acc)

/-- Models the collaborator `filepath.Ext` (Unix separators). -/
def filepathExt (path : Str) : Str :=
  extRevLoop path.reverse []

/-- Models the collaborator `filepath.Base` (Unix separators). -/
def filepathBase (path : Str) : Str :=
  if path = [] then ".".data
  else
    let revTrimmed := path.reverse.dropWhile (· == '/')
    if revTrimmed = [] then "/".data
    else (revTrimmed.takeWhile (fun ch => ch ≠ '/')).reverse

/-- The content-type inference shared by `CreateFilePart` and
`AddFileReader`: `mime.TypeByExtension` (supplied as a parameter, the table
is platform-dependent) with the `application/octet-stream` fallback. -/
def contentTypeFor (typeByExt : Str → Str) (fileName : Str) : Str :=
  let contentType := typeByExt (filepathExt fileName)
  if contentType = [] then "application/octet-stream".data else contentType

/-- `Composer.CreateFilePart`. -/
def Composer.CreateFilePart (_c : Composer) (typeByExt : Str → Str)
    (fieldName fileName : Str) : MIMEHeader :=
  [("Content-Disposition".data,
    ["form-data; name=\"".data ++ escapeQuotes fieldName ++
      "\"; filename=\"".data ++ escapeQuotes fileName ++ "\"".data]),
   ("Content-Type".data, [contentTypeFor typeByExt fileName])]

/-- `sort.Strings`: sorts ascending in lexicographic order. -/
def sortStrings (keys : List Str) : List Str :=
  List.insertionSort (· ≤ ·) keys

/-- The header serialization loop of `Composer.AddPart`: field names sorted
with `sort.Strings`, then one `key: value` CRLF-terminated line per value. -/
def headerLines (header : MIMEHeader) : Str :=
  ((sortStrings (header.map Prod.fst)).map fun key =>
    (((header.lookup key).getD []).map fun val =>
      key ++ ": ".data ++ val ++ "\r\n".data).flatten).flatten

/-- `Composer.AddPart`. -/
def Composer.AddPart (c : Composer) (header : MIMEHeader) (reader : Reader) : Composer :=
  let delimiter : Str := if c.readers.length > 0 then "\r\n".data else []
  let buf := delimiter ++ "--".data ++ c.boundary ++ "\r\n".data ++
    headerLines header ++ "\r\n".data
  { c with readers := c.readers ++ [bytesReader buf, reader] }

/-- `Composer.AddField`. -/
def Composer.AddField (c : Composer) (name value : Str) : Composer :=
  let buf := c.delimiter ++ "--".data ++ c.boundary ++
    "\r\nContent-Disposition: form-data; name=\"".data ++ escapeQuotes name ++
    "\"\r\n\r\n".data ++ value
  { c with readers := c.readers ++ [bytesReader buf] }

/-- `Composer.AddFieldReader`. -/
def Composer.AddFieldReader (c : Composer) (name : Str) (reader : Reader) : Composer :=
  let buf := c.delimiter ++ "--".data ++ c.boundary ++
    "\r\nContent-Disposition: form-data; name=\"".data ++ escapeQuotes name ++
    "\"\r\n\r\n".data
  { c with readers := c.readers ++ [bytesReader buf, reader] }

/-- `Composer.AddFileReader`. -/
def Composer.AddFileReader (typeByExt : Str → Str) (c : Composer)
    (fieldName fileName : Str) (reader : Reader) : Composer :=
  let contentType := contentTypeFor typeByExt fileName
  let buf := c.delimiter ++ "--".data ++ c.boundary ++
    "\r\nContent-Disposition: form-data; name=\"".data ++ escapeQuotes fieldName ++
    "\"; filename=\"".data ++ escapeQuotes fileName ++
    "\"\r\nContent-Type: ".data ++ contentType ++ "\r\n\r\n".data
  { c with readers := c.readers ++ [bytesReader buf, reader] }

/-- `Composer.AddFile`: the result of the collaborator `sizeio.OpenFile`
(either an open error, or the opened file's content and size; the returned
reader is closable and size-aware) is supplied as a parameter. -/
def Composer.AddFile (typeByExt : Str → Str) (c : Composer) (fieldName filePath : Str)
    (openResult : Except String (Str × Nat)) : Except String Unit × Composer :=
  if !c.CloseReaders then
    (.error "multipart: adding file by path forbidden", c)
  else
    match openResult with
    | .error e => (.error e, c)
    | .ok file =>
      (.ok (), c.AddFileReader typeByExt fieldName (filepathBase filePath)
        (sizeReadCloser file.1 file.2))

/-- The result of `os.File.Stat`. -/
structure FileInfo where
  name : Str
  size : Nat
deriving DecidableEq, Repr

/-- An opened `*os.File` handle: its content and the outcome of `Stat`. -/
structure File where
  content : Str
  stat : Except String FileInfo

/-- `Composer.AddFileObject`. -/
def Composer.AddFileObject (typeByExt : Str → Str) (c : Composer) (fieldName : Str)
    (file : File) : Except String Unit × Composer :=
  match file.stat with
  | .error e => (.error e, c)
  | .ok stat =>
    (.ok (), c.AddFileReader typeByExt fieldName stat.name
      (sizeReadCloser file.content stat.size))

/-- `closeAll`: the observable effect is the list of readers whose `Close`
method is invoked — every reader implementing `io.Closer`. -/
def closeAll (readers : List Reader) : List Reader :=
  readers.filter (·.closable)

/-- The `composedReader` returned by the detach methods: the concatenated
content (`io.MultiReader`) and the readers remembered for `Close`. -/
structure ComposedReader where
  content : Str
  readers : List Reader
deriving DecidableEq, Repr

/-- `composedReader.Close`: closes the remembered readers. -/
def ComposedReader.Close (r : ComposedReader) : List Reader :=
  closeAll r.readers

/-- The private `Composer.detachReader`. -/
def Composer.detachReader (c : Composer) : ComposedReader × Composer :=
  let readers := if c.CloseReaders then c.readers else []
  ({ content := (c.readers.map Reader.content).flatten, readers := readers },
   { c with readers := [] })

/-- `Composer.appendLastBoundary`. -/
def Composer.appendLastBoundary (c : Composer) : Composer :=
  { c with readers := c.readers ++
      [stringsReader ("\r\n--".data ++ c.boundary ++ "--\r\n".data)] }

/-- `Composer.DetachReader`. -/
def Composer.DetachReader (c : Composer) : ComposedReader × Composer :=
  c.appendLastBoundary.detachReader

/-- The summation loop of `Composer.totalSize`: errors at a reader that does
not implement `sizeio.WithSize`. -/
def totalSizeLoop : List Reader → Except String Nat
  | [] => .ok 0
  | r :: rest =>
    match r.size with
    | some n =>
      match totalSizeLoop rest with
      | .ok m => .ok (n + m)
      | .error e => .error e
    | none => .error "multipart: reader without size encountered"

/-- The private `Composer.totalSize`. -/
def Composer.totalSize (c : Composer) : Except String Nat :=
  totalSizeLoop c.readers

/-- `Composer.DetachReaderWithSize`. -/
def Composer.DetachReaderWithSize (c : Composer) :
    Except String (ComposedReader × Nat) × Composer :=
  let c1 := c.appendLastBoundary
  match c1.totalSize with
  | .error e => (.error e, c1)
  | .ok size =>
    let detached := c1.detachReader
    (.ok (detached.1, size), detached.2)

/-- `Composer.Close`: the observable effect is the list of readers closed. -/
def Composer.Close (c : Composer) : List Reader :=
  if c.CloseReaders then closeAll c.readers else []

/-- `Composer.Clear`: closes, then empties the collection. -/
def Composer.Clear (c : Composer) : List Reader × Composer :=
  (c.Close, { c with readers := [] })

/-- Assignment to the public `CloseReaders` field. -/
def setCloseReaders (c : Composer) (flag : Bool) : Composer :=
  { c with CloseReaders := flag }

/-- Validity of an explicit boundary token as the specification states it:
1 to 70 bytes, every character alphanumeric or in the permitted punctuation
set, a space permitted only when it is not the final character. -/
def specTokenOk (token : Str) : Prop :=
  1 ≤ token.length ∧ token.length ≤ 70 ∧
  ∀ j (h : j < token.length),
    isAlnum (token.get ⟨j, h⟩) = true ∨ isBoundaryPunct (token.get ⟨j, h⟩) = true ∨
    (token.get ⟨j, h⟩ = ' ' ∧ j + 1 ≠ token.length)

instance (token : Str) : Decidable (specTokenOk token) := by
  unfold specTokenOk
  infer_instance

/-- A reader like the one returned by `io.Pipe`: closable, but without the
`sizeio.WithSize` capability. -/
def pipeReaderSample : Reader :=
  { content := "x".data, size := none, closable := true }

/-- A composer holding one sizeless content source, for the
`DetachReaderWithSize` failure scenarios. -/
def composerC1 : Composer :=
  (NewComposer "B".data).AddFieldReader "foo".data pipeReaderSample

/-- A composer to which a closable, size-aware file handle was added through
`AddFileObject` while `CloseReaders` was still true. -/
def composerC4 : Composer :=
  (Composer.AddFileObject (fun _ => []) (NewComposer "B".data) "file".data
    { content := "data".data, stat := .ok { name := "f.bin".data, size := 4 } }).2

lemma boundaryCharsOk_cons (ch : Char) (rest : Str) (i e : Nat) :
    boundaryCharsOk (ch :: rest) i e =
      ((isAlnum ch || isBoundaryPunct ch || (ch == ' ' && i != e)) &&
        boundaryCharsOk rest (i + 1) e) := by
  simp only [boundaryCharsOk]
  by_cases h1 : isAlnum ch <;> by_cases h2 : isBoundaryPunct ch <;>
    by_cases h3 : (ch == ' ' && i != e) = true <;> simp [h1, h2, h3]

lemma boundaryCharsOk_iff (l : Str) (i e : Nat) :
    boundaryCharsOk l i e = true ↔
    ∀ j (h : j < l.length),
      isAlnum (l.get ⟨j, h⟩) = true ∨ isBoundaryPunct (l.get ⟨j, h⟩) = true ∨
      (l.get ⟨j, h⟩ = ' ' ∧ i + j ≠ e) := by
  induction l generalizing i with
  | nil => simp [boundaryCharsOk]
  | cons ch rest ih =>
    rw [boundaryCharsOk_cons, Bool.and_eq_true, ih]
    constructor
    · rintro ⟨hh, ht⟩ j hj
      cases j with
      | zero =>
        simp only [List.get, Nat.add_zero]
        have hh2 := hh
        simp only [Bool.or_eq_true, Bool.and_eq_true, beq_iff_eq, bne_iff_ne, ne_eq] at hh2
        tauto
      | succ k =>
        have hk : k < rest.length := by simpa using hj
        have := ht k hk
        simp only [List.get]
        have harith : i + (k + 1) = i + 1 + k := by omega
        rw [harith]
        exact this
    · intro h
      constructor
      · have h0 := h 0 (by simp)
        simp only [List.get, Nat.add_zero] at h0
        simp only [Bool.or_eq_true, Bool.and_eq_true, beq_iff_eq, bne_iff_ne, ne_eq]
        tauto
      · intro k hk
        have := h (k + 1) (by simpa using hk)
        simp only [List.get] at this
        have harith : i + (k + 1) = i + 1 + k := by omega
        rw [harith] at this
        exact this

lemma setBoundary_ok (c : Composer) (token : Str) (hr : c.readers = [])
    (hv : specTokenOk token) :
    c.SetBoundary token = (.ok (), { c with boundary := token }) := by
  obtain ⟨h1, h2, hchars⟩ := hv
  have hok : boundaryCharsOk token 0 (token.length - 1) = true := by
    rw [boundaryCharsOk_iff]
    intro j hj
    rcases hchars j hj with h | h | ⟨hsp, hne⟩
    · exact Or.inl h
    · exact Or.inr (Or.inl h)
    · exact Or.inr (Or.inr ⟨hsp, by omega⟩)
  simp [Composer.SetBoundary, hr, hok]
  exact ⟨List.length_pos.mp (by omega), h2⟩

lemma setBoundary_fail (c : Composer) (token : Str) (hr : c.readers = [])
    (hv : ¬ specTokenOk token) :
    ((c.SetBoundary token).1 = .error "multipart: invalid boundary length" ∨
     (c.SetBoundary token).1 = .error "multipart: invalid boundary character") ∧
    (c.SetBoundary token).2 = c := by
  by_cases hl : token = [] ∨ 70 < token.length
  · constructor
    · left
      simp [Composer.SetBoundary, hr]
      split_ifs with h
      · rfl
      · exact absurd hl h
    · simp [Composer.SetBoundary, hr]
      split_ifs with h
      · rfl
      · exact absurd hl h
  · push_neg at hl
    obtain ⟨hl1, hl2⟩ := hl
    have hpos : 0 < token.length := List.length_pos.mpr hl1
    have hbad : boundaryCharsOk token 0 (token.length - 1) = false := by
      by_contra hcon
      rw [Bool.not_eq_false, boundaryCharsOk_iff] at hcon
      refine hv ⟨by omega, by omega, fun j hj => ?_⟩
      rcases hcon j hj with h | h | ⟨hsp, hne⟩
      · exact Or.inl h
      · exact Or.inr (Or.inl h)
      · exact Or.inr (Or.inr ⟨hsp, by omega⟩)
    constructor
    · right
      simp [Composer.SetBoundary, hr, hbad]
      split_ifs with h
      · rcases h with h | h
        · exact absurd h hl1
        · omega
      · rfl
    · simp [Composer.SetBoundary, hr, hbad]
      split_ifs with h
      · rfl
      · rfl

lemma totalSizeLoop_error_of_none (rs : List Reader) (h : ∃ r ∈ rs, r.size = none) :
    totalSizeLoop rs = .error "multipart: reader without size encountered" := by
  induction rs with
  | nil => simp at h
  | cons r rest ih =>
    obtain ⟨r0, hmem, hnone⟩ := h
    rcases List.mem_cons.mp hmem with heq | hmem2
    · subst heq
      simp [totalSizeLoop, hnone]
    · cases hs : r.size with
      | none => simp [totalSizeLoop, hs]
      | some n => simp [totalSizeLoop, hs, ih ⟨r0, hmem2, hnone⟩]

lemma totalSizeLoop_ok_of_exact (rs : List Reader)
    (h : ∀ r ∈ rs, r.size = some r.content.length) :
    totalSizeLoop rs = .ok ((rs.map Reader.content).flatten.length) := by
  induction rs with
  | nil => simp [totalSizeLoop]
  | cons r rest ih =>
    have hr := h r (List.mem_cons_self r rest)
    have ht := ih (fun x hx => h x (List.mem_cons_of_mem r hx))
    simp [totalSizeLoop, hr, ht]

lemma sortStrings_eq_of_perm (l1 l2 : List Str) (h : l1.Perm l2) :
    sortStrings l1 = sortStrings l2 := by
  have hperm : (List.insertionSort (· ≤ ·) l1).Perm (List.insertionSort (· ≤ ·) l2) :=
    ((List.perm_insertionSort _ l1).trans h).trans (List.perm_insertionSort _ l2).symm
  exact @List.eq_of_perm_of_sorted Str (· ≤ ·) _ _ _ hperm
    (List.sorted_insertionSort _ l1) (List.sorted_insertionSort _ l2)

lemma lookup_eq_of_perm {β : Type} {l1 l2 : List (Str × β)} (h : l1.Perm l2) :
    (l1.map Prod.fst).Nodup → ∀ a : Str, l1.lookup a = l2.lookup a := by
  induction h with
  | nil =>
    intro _ a
    rfl
  | @cons x t1 t2 h ih =>
    intro hnd a
    obtain ⟨k, v⟩ := x
    have hnd2 : (t1.map Prod.fst).Nodup := by
      simp only [List.map_cons, List.nodup_cons] at hnd
      exact hnd.2
    simp only [List.lookup]
    cases hax : a == k with
    | true => rfl
    | false => exact ih hnd2 a
  | swap x y l =>
    intro hnd a
    obtain ⟨k1, v1⟩ := x
    obtain ⟨k2, v2⟩ := y
    have hne : k2 ≠ k1 := by
      simp only [List.map_cons, List.nodup_cons, List.mem_cons] at hnd
      exact fun he => hnd.1 (Or.inl he)
    simp only [List.lookup]
    cases hax : a == k2 with
    | true =>
      have ha : a = k2 := beq_iff_eq.mp hax
      subst ha
      have hf : (a == k1) = false := beq_eq_false_iff_ne.mpr hne
      simp [hf]
    | false =>
      cases hay : a == k1 with
      | true => rfl
      | false => rfl
  | trans h12 h23 ih12 ih23 =>
    intro hnd a
    rw [ih12 hnd a, ih23 (((h12.map Prod.fst).nodup_iff).mp hnd) a]

lemma headerLines_eq_of_perm (h1 h2 : MIMEHeader)
    (hnd : (h1.map Prod.fst).Nodup) (hp : h1.Perm h2) :
    headerLines h1 = headerLines h2 := by
  unfold headerLines
  rw [sortStrings_eq_of_perm _ _ (hp.map Prod.fst)]
  have hl : ∀ a : Str, h1.lookup a = h2.lookup a := lookup_eq_of_perm hp hnd
  simp [hl]

/-- Claim C1 (corrected): the claim as stated is false. After a failed
`DetachReaderWithSize` the composer is not in its prior state — the
terminal-boundary element has already been appended to the source chain —
so a subsequent `DetachReader` yields a stream with a duplicated terminal
boundary, different from the stream a fresh `DetachReader` would have
produced. -/
theorem claim_C1_counterexample :
    ((composerC1.DetachReaderWithSize).2 ≠ composerC1) ∧
    (((composerC1.DetachReaderWithSize).2.DetachReader).1.content ≠
      (composerC1.DetachReader).1.content) := by
  decide

/-- Claim C1 (amended): when total-size computation fails because some
appended source does not support size reporting, `DetachReaderWithSize`
returns the size-unavailable error and neither closes nor detaches the
sources — every previously appended element is retained unchanged and in
order — but it has already appended the terminal-boundary element, so the
composer afterwards equals `appendLastBoundary` of its prior state rather
than the prior state itself. -/
theorem claim_C1_amended (c : Composer) (h : ∃ r ∈ c.readers, r.size = none) :
    (c.DetachReaderWithSize).1 =
      Except.error "multipart: reader without size encountered" ∧
    (c.DetachReaderWithSize).2 = c.appendLastBoundary := by
  obtain ⟨r, hm, hn⟩ := h
  have herr : (c.appendLastBoundary).totalSize =
      .error "multipart: reader without size encountered" := by
    apply totalSizeLoop_error_of_none
    exact ⟨r, by simp [Composer.appendLastBoundary]; exact Or.inl hm, hn⟩
  constructor
  · simp [Composer.DetachReaderWithSize, herr]
  · simp [Composer.DetachReaderWithSize, herr]

/-- Witness for C1: the amended theorem applied to a concrete composer
holding one sizeless source. -/
theorem claim_C1_witness :
    (composerC1.DetachReaderWithSize).1 =
      Except.error "multipart: reader without size encountered" ∧
    (composerC1.DetachReaderWithSize).2 = composerC1.appendLastBoundary :=
  claim_C1_amended composerC1 (by decide)

/-- Claim C2 (corrected): the claim as stated is false. Detaching a
composer with boundary `B` and zero parts does not yield `--B--\r\n`: the
terminal boundary is always preceded by a CRLF. -/
theorem claim_C2_counterexample :
    (NewComposer "B".data).readers = [] ∧
    ((NewComposer "B".data).DetachReader).1.content ≠ "--B--\r\n".data := by
  decide

/-- Claim C2 (amended): for every composer with boundary `B` to which no
parts have been appended, the detached stream's full contents are exactly
`\r\n--B--\r\n` — the terminal boundary line preceded by one CRLF. -/
theorem claim_C2_amended (c : Composer) (h : c.readers = []) :
    (c.DetachReader).1.content = "\r\n--".data ++ c.boundary ++ "--\r\n".data := by
  simp [Composer.DetachReader, Composer.appendLastBoundary, Composer.detachReader,
    stringsReader, h]

/-- Witness for C2: the amended theorem applied to a fresh composer with
boundary `B`. -/
theorem claim_C2_witness :
    ((NewComposer "B".data).DetachReader).1.content =
      "\r\n--".data ++ "B".data ++ "--\r\n".data :=
  claim_C2_amended (NewComposer "B".data) rfl

/-- Claim C3 (corrected): the claim as stated is false. `CreatePart`
serializes the disposition entries in Go map iteration order, which is not
deterministic: two iteration orders of the same logical disposition (they
are permutations of each other) produce different header bytes. -/
theorem claim_C3_counterexample :
    ([("b".data, "2".data), ("a".data, "1".data)] : List (Str × Str)).Perm
      [("a".data, "1".data), ("b".data, "2".data)] ∧
    (NewComposer "B".data).CreatePart [("b".data, "2".data), ("a".data, "1".data)] ≠
      (NewComposer "B".data).CreatePart [("a".data, "1".data), ("b".data, "2".data)] := by
  decide

/-- Claim C3 (amended): the header block serialized by `AddPart` emits the
header field names in deterministic lexicographic order — its bytes are
invariant under any reordering of the header map's enumeration — but the
disposition keys inside the `Content-Disposition` value built by
`CreatePart` follow the map iteration order and are not sorted, so two
serializations of the same logical disposition need not produce identical
bytes. -/
theorem claim_C3_amended (c : Composer) (h1 h2 : MIMEHeader) (r : Reader)
    (hnd : (h1.map Prod.fst).Nodup) (hp : h1.Perm h2) :
    c.AddPart h1 r = c.AddPart h2 r := by
  simp [Composer.AddPart, headerLines_eq_of_perm h1 h2 hnd hp]

/-- Witness for C3: `AddPart` produces identical bytes for two enumeration
orders of the same header. -/
theorem claim_C3_witness :
    (NewComposer "B".data).AddPart
      [("Content-Disposition".data, ["form-data".data]), ("Content-Type".data, ["text/plain".data])]
      (stringsReader "v".data) =
    (NewComposer "B".data).AddPart
      [("Content-Type".data, ["text/plain".data]), ("Content-Disposition".data, ["form-data".data])]
      (stringsReader "v".data) :=
  claim_C3_amended (NewComposer "B".data)
    [("Content-Disposition".data, ["form-data".data]), ("Content-Type".data, ["text/plain".data])]
    [("Content-Type".data, ["text/plain".data]), ("Content-Disposition".data, ["form-data".data])]
    (stringsReader "v".data) (by decide) (by decide)

/-- Claim C4 (corrected): the claim as stated is false. A closable source
added through `AddFileObject` while `CloseReaders` was true is not released
by `Close` or by closing the detached stream once the flag has been set to
false: the flag is consulted at close/detach time, not at append time. -/
theorem claim_C4_counterexample :
    (sizeReadCloser "data".data 4) ∈ composerC4.readers ∧
    (sizeReadCloser "data".data 4).closable = true ∧
    (setCloseReaders composerC4 false).Close = [] ∧
    (((setCloseReaders composerC4 false).DetachReader).1).Close = [] := by
  decide

/-- Claim C4 (amended): ownership is decided by the value of `CloseReaders`
at the time `Close` or a detach runs, not at append time. A closable source
appended while the flag is true is released by `Close` while the flag stays
true, but after disabling the flag neither `Close` nor the detached
stream's close releases anything. -/
theorem claim_C4_amended (c : Composer) (name : Str) (r : Reader)
    (hc : r.closable = true) (hf : c.CloseReaders = true) :
    r ∈ (c.AddFieldReader name r).Close ∧
    (setCloseReaders (c.AddFieldReader name r) false).Close = [] ∧
    (((setCloseReaders (c.AddFieldReader name r) false).DetachReader).1).Close = [] := by
  refine ⟨?_, ?_, ?_⟩
  · simp [Composer.Close, Composer.AddFieldReader, hf, closeAll, List.mem_filter, hc]
  · simp [Composer.Close, setCloseReaders]
  · simp [Composer.DetachReader, Composer.detachReader, setCloseReaders,
      ComposedReader.Close, closeAll, Composer.appendLastBoundary]

/-- Witness for C4: the amended theorem applied to a fresh composer and a
concrete closable reader. -/
theorem claim_C4_witness :
    (sizeReadCloser "x".data 1) ∈
      ((NewComposer "B".data).AddFieldReader "foo".data (sizeReadCloser "x".data 1)).Close ∧
    (setCloseReaders
      ((NewComposer "B".data).AddFieldReader "foo".data (sizeReadCloser "x".data 1))
      false).Close = [] ∧
    (((setCloseReaders
      ((NewComposer "B".data).AddFieldReader "foo".data (sizeReadCloser "x".data 1))
      false).DetachReader).1).Close = [] :=
  claim_C4_amended (NewComposer "B".data) "foo".data (sizeReadCloser "x".data 1) rfl rfl

/-- Claim C5: for a fresh composer with boundary `B` on which
`AddField("comment", "a comment")` is called once, the detached stream's
full contents are exactly
`--B\r\nContent-Disposition: form-data; name="comment"\r\n\r\na comment\r\n--B--\r\n`. -/
theorem claim_C5 (B : Str) :
    (((NewComposer B).AddField "comment".data "a comment".data).DetachReader).1.content =
    "--".data ++ B ++
      "\r\nContent-Disposition: form-data; name=\"comment\"\r\n\r\na comment\r\n--".data ++
      B ++ "--\r\n".data := by
  simp [NewComposer, Composer.AddField, Composer.DetachReader, Composer.appendLastBoundary,
    Composer.detachReader, Composer.delimiter, bytesReader, stringsReader, escapeQuotes]

/-- Claim C6: for every token of 1 to 70 bytes whose characters are all
alphanumeric or permitted punctuation, with a space only in non-final
position, `SetBoundary` on a composer with no appended parts succeeds and
`Boundary` afterwards returns exactly that token. -/
theorem claim_C6 (c : Composer) (token : Str) (hr : c.readers = [])
    (hv : specTokenOk token) :
    (c.SetBoundary token).1 = .ok () ∧ ((c.SetBoundary token).2).Boundary = token := by
  rw [setBoundary_ok c token hr hv]
  exact ⟨rfl, rfl⟩

/-- Witness for C6 at token `abc`. -/
theorem claim_C6_witness :
    (((NewComposer "x".data).SetBoundary "abc".data).1 = .ok ()) ∧
    ((((NewComposer "x".data).SetBoundary "abc".data).2).Boundary = "abc".data) :=
  claim_C6 (NewComposer "x".data) "abc".data rfl (by decide)

/-- Claim C7: for every token that is empty, longer than 70 bytes, or
contains a character outside the permitted set (including a space as the
final character), `SetBoundary` fails with one of the invalid-boundary
errors and the boundary afterwards equals its value from before the call.
(Stated for the pre-append state; after parts are appended the call fails
with the invalid-state error instead, see C8.) -/
theorem claim_C7 (c : Composer) (token : Str) (hr : c.readers = [])
    (hv : ¬ specTokenOk token) :
    ((c.SetBoundary token).1 = .error "multipart: invalid boundary length" ∨
     (c.SetBoundary token).1 = .error "multipart: invalid boundary character") ∧
    ((c.SetBoundary token).2).Boundary = c.Boundary := by
  have h := setBoundary_fail c token hr hv
  exact ⟨h.1, by rw [h.2]⟩

/-- Witness for C7 at the invalid token consisting of one final space. -/
theorem claim_C7_witness :
    ((((NewComposer "x".data).SetBoundary " ".data).1 =
        .error "multipart: invalid boundary length" ∨
      ((NewComposer "x".data).SetBoundary " ".data).1 =
        .error "multipart: invalid boundary character") ∧
     (((NewComposer "x".data).SetBoundary " ".data).2).Boundary =
       (NewComposer "x".data).Boundary) :=
  claim_C7 (NewComposer "x".data) " ".data rfl (by decide)

/-- Claim C8: after any part has been appended, `SetBoundary` (even with a
valid token) and `ResetBoundary` fail with the respective called-after-add
errors and leave the boundary unchanged; after `Clear` the same boundary
mutations succeed again. -/
theorem claim_C8 (c : Composer) (token fresh : Str) (hr : c.readers ≠ [])
    (hv : specTokenOk token) :
    (c.SetBoundary token).1 = .error "multipart: SetBoundary called after add" ∧
    ((c.SetBoundary token).2).Boundary = c.Boundary ∧
    (c.ResetBoundary fresh).1 = .error "multipart: RandomizeBoundary called after add" ∧
    ((c.ResetBoundary fresh).2).Boundary = c.Boundary ∧
    (((c.Clear).2).SetBoundary token).1 = .ok () ∧
    ((((c.Clear).2).SetBoundary token).2).Boundary = token ∧
    (((c.Clear).2).ResetBoundary fresh).1 = .ok () := by
  have hpos : c.readers.length > 0 := List.length_pos.mpr hr
  have hclear : ((c.Clear).2).readers = [] := rfl
  have hok := setBoundary_ok (c.Clear).2 token hclear hv
  refine ⟨?_, ?_, ?_, ?_, ?_, ?_, ?_⟩
  · simp [Composer.SetBoundary, hpos]
  · simp [Composer.SetBoundary, hpos, Composer.Boundary]
  · simp [Composer.ResetBoundary, hpos]
  · simp [Composer.ResetBoundary, hpos, Composer.Boundary]
  · rw [hok]
  · rw [hok]
    rfl
  · simp [Composer.ResetBoundary, hclear]

/-- Witness for C8 on a composer holding one appended field. -/
theorem claim_C8_witness :
    ((((NewComposer "x".data).AddField "a".data "b".data).SetBoundary "abc".data).1 =
      .error "multipart: SetBoundary called after add" ∧
     ((((NewComposer "x".data).AddField "a".data "b".data).SetBoundary "abc".data).2).Boundary =
       ((NewComposer "x".data).AddField "a".data "b".data).Boundary ∧
     (((NewComposer "x".data).AddField "a".data "b".data).ResetBoundary "zzz".data).1 =
      .error "multipart: RandomizeBoundary called after add" ∧
     ((((NewComposer "x".data).AddField "a".data "b".data).ResetBoundary "zzz".data).2).Boundary =
       ((NewComposer "x".data).AddField "a".data "b".data).Boundary ∧
     (((((NewComposer "x".data).AddField "a".data "b".data).Clear).2).SetBoundary "abc".data).1 =
       .ok () ∧
     ((((((NewComposer "x".data).AddField "a".data "b".data).Clear).2).SetBoundary "abc".data).2).Boundary =
       "abc".data ∧
     (((((NewComposer "x".data).AddField "a".data "b".data).Clear).2).ResetBoundary "zzz".data).1 =
       .ok ()) :=
  claim_C8 ((NewComposer "x".data).AddField "a".data "b".data) "abc".data "zzz".data
    (by decide) (by decide)

/-- Claim C9: if every source in the chain reports its exact byte length
through the size capability, `DetachReaderWithSize` succeeds and the size
it returns equals the total number of bytes obtained by reading the
returned stream (the same stream `DetachReader` yields) to exhaustion. -/
theorem claim_C9 (c : Composer)
    (h : ∀ r ∈ c.readers, r.size = some r.content.length) :
    (c.DetachReaderWithSize).1 =
      Except.ok ((c.DetachReader).1, ((c.DetachReader).1).content.length) := by
  have hall : ∀ r ∈ (c.appendLastBoundary).readers, r.size = some r.content.length := by
    intro r hr
    simp [Composer.appendLastBoundary] at hr
    rcases hr with hr | hr
    · exact h r hr
    · subst hr
      simp [stringsReader]
  have hsize := totalSizeLoop_ok_of_exact _ hall
  simp [Composer.DetachReaderWithSize, Composer.DetachReader, Composer.totalSize, hsize,
    Composer.detachReader]

/-- Witness for C9 on a composer holding one appended field. -/
theorem claim_C9_witness :
    ((((NewComposer "B".data).AddField "a".data "b".data).DetachReaderWithSize).1 =
      Except.ok (((((NewComposer "B".data).AddField "a".data "b".data).DetachReader).1),
        (((((NewComposer "B".data).AddField "a".data "b".data).DetachReader).1)).content.length)) :=
  claim_C9 ((NewComposer "B".data).AddField "a".data "b".data) (by decide)

/-- Claim C10: with `CloseReaders` false, the by-path convenience `AddFile`
fails with the ownership-disabled error, while the by-open-handle
convenience `AddFileObject` propagates exactly the outcome of `Stat` —
succeeding whenever `Stat` does — and the composer afterwards closes
nothing, neither via `Close` nor via closing the detached stream. -/
theorem claim_C10 (typeByExt : Str → Str) (c : Composer) (fieldName filePath : Str)
    (file : File) (openResult : Except String (Str × Nat))
    (hf : c.CloseReaders = false) :
    (Composer.AddFile typeByExt c fieldName filePath openResult).1 =
      Except.error "multipart: adding file by path forbidden" ∧
    (Composer.AddFileObject typeByExt c fieldName file).1 = file.stat.map (fun _ => ()) ∧
    ((Composer.AddFileObject typeByExt c fieldName file).2).Close = [] ∧
    ((((Composer.AddFileObject typeByExt c fieldName file).2).DetachReader).1).Close = [] := by
  refine ⟨?_, ?_, ?_, ?_⟩
  · simp [Composer.AddFile, hf]
  · cases hs : file.stat with
    | error e => simp [Composer.AddFileObject, hs, Except.map]
    | ok info => simp [Composer.AddFileObject, hs, Except.map]
  · cases hs : file.stat with
    | error e => simp [Composer.AddFileObject, hs, Composer.Close, hf]
    | ok info =>
      simp [Composer.AddFileObject, hs, Composer.Close, Composer.AddFileReader,
        setCloseReaders, hf]
  · cases hs : file.stat with
    | error e =>
      simp [Composer.AddFileObject, hs, Composer.DetachReader, Composer.detachReader,
        ComposedReader.Close, closeAll, Composer.appendLastBoundary, hf]
    | ok info =>
      simp [Composer.AddFileObject, hs, Composer.DetachReader, Composer.detachReader,
        ComposedReader.Close, closeAll, Composer.appendLastBoundary,
        Composer.AddFileReader, hf]

/-- Witness for C10 on a composer with closing disabled and a statable
file handle. -/
theorem claim_C10_witness :
    (Composer.AddFile (fun _ => []) (setCloseReaders (NewComposer "B".data) false)
      "f".data "a/b.txt".data (.ok ("xy".data, 2))).1 =
      Except.error "multipart: adding file by path forbidden" ∧
    (Composer.AddFileObject (fun _ => []) (setCloseReaders (NewComposer "B".data) false)
      "f".data { content := "xy".data, stat := .ok { name := "b.txt".data, size := 2 } }).1 =
      Except.ok () ∧
    ((Composer.AddFileObject (fun _ => []) (setCloseReaders (NewComposer "B".data) false)
      "f".data { content := "xy".data, stat := .ok { name := "b.txt".data, size := 2 } }).2).Close = [] ∧
    ((((Composer.AddFileObject (fun _ => []) (setCloseReaders (NewComposer "B".data) false)
      "f".data { content := "xy".data, stat := .ok { name := "b.txt".data, size := 2 } }).2).DetachReader).1).Close = [] :=
  claim_C10 (fun _ => []) (setCloseReaders (NewComposer "B".data) false) "f".data
    "a/b.txt".data
    { content := "xy".data, stat := .ok { name := "b.txt".data, size := 2 } }
    (.ok ("xy".data, 2)) rfl

end MultipartComposer
